import Mathlib

/-!
# Verification of `hexbin_generator/hexbin_utilities.py`

A shallow embedding of the statistics kernel and hexagon-sizing pipeline of
`hexbin_utilities.py`, together with theorems settling the specification's
claims about it.

Modelling conventions:
* Python floats are idealized as exact rationals (`ℚ`); for every input
  appearing in the claims the float computations are either exact or their
  rounding cannot affect the compared/floored quantities.
* Fallible Python operations return `Except PyErr _`; an uncaught Python
  exception is the corresponding `.error`.
* Python 3 semantics are embedded faithfully where they matter:
  true division `/` always yields a float; indexing a list with a float
  raises `TypeError`; integer list indices wrap once when negative and raise
  `IndexError` when out of range.
-/

/-- Python runtime errors that the embedded functions can raise. -/
inductive PyErr where
  | indexError
  | typeError
  | zeroDivisionError
  deriving DecidableEq

/-- A Python number together with its runtime type tag: `len(...)`, integer
literals and `int(...)` are ints, while true division produces floats.
Float values are idealized as exact rationals. -/
inductive PyNum where
  | intVal : ℤ → PyNum
  | floatVal : ℚ → PyNum
  deriving DecidableEq

/-- Numeric value of a Python number, forgetting the int/float tag. -/
def PyNum.toRat : PyNum → ℚ
  | .intVal n => (n : ℚ)
  | .floatVal q => q

/-- Python 3 true division `a / b`: raises `ZeroDivisionError` on a zero
divisor and otherwise returns a float, whatever the operand types. -/
def pyTrueDiv (a b : PyNum) : Except PyErr PyNum :=
  if b.toRat = 0 then .error .zeroDivisionError
  else .ok (.floatVal (a.toRat / b.toRat))

/-- Python subtraction: int − int is an int, any float operand makes the
result a float. -/
def pySub (a b : PyNum) : PyNum :=
  match a, b with
  | .intVal m, .intVal n => .intVal (m - n)
  | _, _ => .floatVal (a.toRat - b.toRat)

/-- Python list indexing `l[i]` with an int index: a negative index wraps
once from the end; an index still out of `[0, len l)` raises `IndexError`. -/
def pyGet (l : List ℚ) (i : ℤ) : Except PyErr ℚ :=
  let j : ℤ := if i < 0 then (l.length : ℤ) + i else i
  if hj : 0 ≤ j ∧ j < (l.length : ℤ) then
    .ok (l.get ⟨j.toNat, by omega⟩)
  else
    .error .indexError

/-- Python list indexing `l[i]` where the index is a Python number: a float
index raises `TypeError` (Python 3), an int index behaves as `pyGet`. -/
def pyGetNum (l : List ℚ) (i : PyNum) : Except PyErr ℚ :=
  match i with
  | .intVal n => pyGet l n
  | .floatVal _ => .error .typeError

/-- `math.fsum`, idealized over exact rationals: compensated summation of
floats is exactly the true sum once floats are idealized as rationals. -/
def fsum (l : List ℚ) : ℚ := l.sum

/-- Embedding of `get_mean` (`hexbin_utilities.py:33`): `fsum(value_list)`
divided by `len(value_list)`; dividing by a zero count raises
`ZeroDivisionError`. -/
def get_mean (value_list : List ℚ) : Except PyErr ℚ :=
  let value_count : ℤ := value_list.length
  if value_count = 0 then .error .zeroDivisionError
  else .ok (fsum value_list / (value_count : ℚ))

/-- Embedding of `get_median` (`hexbin_utilities.py:46`): both branches
compute `median_index` with Python 3 true division, producing a float, and
then use it (minus an int) as a list index. -/
def get_median (value_list : List ℚ) : Except PyErr ℚ := do
  let value_count : ℤ := value_list.length
  if value_count % 2 = 0 then
    let median_index ← pyTrueDiv (.intVal value_count) (.intVal 2)
    pyGetNum value_list (pySub median_index (.intVal 1))
  else
    let median_index ← pyTrueDiv (.intVal (value_count + 1)) (.intVal 2)
    let a ← pyGetNum value_list (pySub median_index (.intVal 1))
    let b ← pyGetNum value_list median_index
    pure ((a + b) / 2)

/-- Embedding of `get_lower_upper_quartile` (`hexbin_utilities.py:74`):
`q1_index = floor(n/4 + 5/12)` (an int, since `math.floor` of a float is an
int), interpolation weight `h`, lower quartile from `value_list[q1_index-1]`
and `value_list[q1_index]`, then `k = int(n - q1_index + 1)` and the upper
quartile from `value_list[k+1]` and `value_list[k]`, in source evaluation
order. -/
def get_lower_upper_quartile (value_list : List ℚ) : Except PyErr (ℚ × ℚ) := do
  let value_count : ℤ := value_list.length
  let q1_index : ℤ := ⌊(value_count : ℚ) / 4 + 5 / 12⌋
  let h : ℚ := (value_count : ℚ) / 4 + 5 / 12 - (q1_index : ℚ)
  let v1 ← pyGet value_list (q1_index - 1)
  let v2 ← pyGet value_list q1_index
  let q1 : ℚ := (1 - h) * v1 + h * v2
  let k : ℤ := value_count - q1_index + 1
  let v3 ← pyGet value_list (k + 1)
  let v4 ← pyGet value_list k
  let q2 : ℚ := (1 - h) * v3 + h * v4
  return (q1, q2)

/-- Embedding of `winsorize_value` (`hexbin_utilities.py:103`): clamp `X`
to the pair `quartile_values = (lower, upper)`. -/
def winsorize_value (X : ℚ) (quartile_values : ℚ × ℚ) : ℚ :=
  if X < quartile_values.1 then quartile_values.1
  else if quartile_values.2 < X then quartile_values.2
  else X

/-- Embedding of `get_winsorized_list` (`hexbin_utilities.py:123`): compute
the quartile pair once from the whole list, then clamp every element. -/
def get_winsorized_list (X : List ℚ) : Except PyErr (List ℚ) := do
  let quartile_values ← get_lower_upper_quartile X
  return X.map (fun value => winsorize_value value quartile_values)

/-- A polygon feature's bounding-box extent: its height and width
(floats, idealized as `ℚ`). -/
structure Extent where
  height : ℚ
  width : ℚ

/-- Embedding of `get_extent_length_height_list_sorted`
(`hexbin_utilities.py:10`): append each feature's extent height then width,
then sort ascending. -/
def get_extent_length_height_list_sorted (polygon_feature_class : List Extent) : List ℚ :=
  (polygon_feature_class.foldl
      (fun size_list feature => size_list ++ [feature.height, feature.width]) []).mergeSort
    (fun a b => decide (a ≤ b))

/-- Embedding of `get_hex_area_from_short_diagonal`
(`hexbin_utilities.py:136`): `1.5 * sqrt(3) * pow(short_diagonal / sqrt(3), 2)`.
The body contains no raising operation, so it always returns `.ok`. -/
noncomputable def get_hex_area_from_short_diagonal (short_diagonal : ℝ) : Except PyErr ℝ :=
  .ok (1.5 * Real.sqrt 3 * (short_diagonal / Real.sqrt 3) ^ 2)

/-- Embedding of `get_hex_area` (`hexbin_utilities.py:145`): the literal
composition sampler → winsorize → mean → hexagon area, with Python
exceptions propagating. -/
noncomputable def get_hex_area (block_group_feature_class : List Extent) : Except PyErr ℝ := do
  let winsorized ← get_winsorized_list
    (get_extent_length_height_list_sorted block_group_feature_class)
  let mean_value ← get_mean winsorized
  get_hex_area_from_short_diagonal (mean_value : ℝ)

/-- Modelled from the spec (§4.2, `hex_area_for_region`): sort the dimension
list ascending, Winsorize it, take its mean, and return the hexagon area of
that mean treated as the short diagonal. This is the spec-side pipeline used
to compare against the code's `get_hex_area`. -/
noncomputable def hex_area_for_region (dimension_values : List ℚ) : Except PyErr ℝ := do
  let winsorized ← get_winsorized_list (dimension_values.mergeSort (fun a b => decide (a ≤ b)))
  let mean_value ← get_mean winsorized
  get_hex_area_from_short_diagonal (mean_value : ℝ)

/-- Raw (unsorted) dimension list produced by the extent sampler: for each
feature its height then its width, in iteration order. -/
def raw_dimension_list (polygon_feature_class : List Extent) : List ℚ :=
  polygon_feature_class.foldl
    (fun size_list feature => size_list ++ [feature.height, feature.width]) []

/-! ## Shared helper lemmas -/

/-- Helper: on any list of at most 10 values, `get_lower_upper_quartile`
raises `IndexError` — for the empty list already at the first read
`value_list[q1_index - 1]`, and otherwise at the upper-quartile read
`value_list[k + 1]`, whose index `n - floor(n/4 + 5/12) + 2` is at least
`n` for every `n ≤ 10`. -/
theorem get_lower_upper_quartile_error_of_length_le_ten (l : List ℚ)
    (hl : l.length ≤ 10) :
    get_lower_upper_quartile l = .error .indexError := by
  rcases l with _ | ⟨a1, _ | ⟨a2, _ | ⟨a3, _ | ⟨a4, _ | ⟨a5, _ | ⟨a6, _ | ⟨a7, _ | ⟨a8, _ |
    ⟨a9, _ | ⟨a10, _ | ⟨a11, rest⟩⟩⟩⟩⟩⟩⟩⟩⟩⟩⟩ <;>
    first
      | norm_num [get_lower_upper_quartile, pyGet, bind, Except.bind]
      | (simp only [List.length_cons] at hl; omega)

/-- Helper: `get_median` raises `TypeError` on every list, because Python 3
true division makes `median_index` a float in both branches and a float is
not a valid list index. -/
theorem get_median_eq_typeError (value_list : List ℚ) :
    get_median value_list = .error .typeError := by
  by_cases h2 : ((value_list.length : ℤ)) % 2 = 0 <;>
    norm_num [get_median, h2, pyTrueDiv, pySub, pyGetNum, PyNum.toRat, bind, Except.bind]

/-- Helper: on every real `d`, the embedded area formula returns
`.ok (√3/2 · d²)`, since `1.5 · √3 · (d/√3)² = √3/2 · d²`. -/
theorem get_hex_area_from_short_diagonal_eq (d : ℝ) :
    get_hex_area_from_short_diagonal d = .ok (Real.sqrt 3 / 2 * d ^ 2) := by
  unfold get_hex_area_from_short_diagonal
  congr 1
  rw [div_pow, Real.sq_sqrt (by norm_num : (0:ℝ) ≤ 3)]
  ring

/-! ## Claims -/

/-- C1: `get_hex_area` equals the documented composed pipeline: sort the
sampler's dimension list ascending, Winsorize it (bounds computed once from
the whole sorted list), take the mean, and return the hexagon area of that
mean treated as the short diagonal — i.e. it coincides with the spec's
`hex_area_for_region` applied to the raw dimension list produced by the
extent sampler. -/
theorem get_hex_area_eq_spec_pipeline (block_group_feature_class : List Extent) :
    get_hex_area block_group_feature_class =
      hex_area_for_region (raw_dimension_list block_group_feature_class) := rfl

/-- C2 (evaluation at the failing input): on the sorted 10-element list
`[1,…,10]` the code does not return a Winsorized list at all — the
upper-quartile read `value_list[k + 1]` uses index `10` on a list whose
valid indices are `0..9`, so `get_winsorized_list` raises `IndexError`. -/
theorem get_winsorized_list_one_to_ten_indexError :
    get_winsorized_list [1, 2, 3, 4, 5, 6, 7, 8, 9, 10] = .error .indexError := by
  norm_num [get_winsorized_list, get_lower_upper_quartile, pyGet, bind, Except.bind]

/-- C3: for every sorted value list whose length `n` satisfies
`4 ≤ n ≤ 10`, `get_lower_upper_quartile` raises `IndexError`, and it
returns a `(lower, upper)` pair only when `n ≥ 11`. -/
theorem get_lower_upper_quartile_fails_between_four_and_ten (l : List ℚ)
    (_hs : List.Sorted (· ≤ ·) l) :
    (4 ≤ l.length ∧ l.length ≤ 10 → get_lower_upper_quartile l = .error .indexError) ∧
    ((∃ p, get_lower_upper_quartile l = .ok p) → 11 ≤ l.length) := by
  constructor
  · intro h
    exact get_lower_upper_quartile_error_of_length_le_ten l h.2
  · rintro ⟨p, hp⟩
    by_contra hlen
    rw [get_lower_upper_quartile_error_of_length_le_ten l (by omega)] at hp
    exact absurd hp (by simp)

/-- C3 witness: at the concrete sorted lists `[1,2,3,4]` (length 4, raises
`IndexError`) and `[1,…,11]` (length 11, returns a pair). -/
theorem get_lower_upper_quartile_fails_between_four_and_ten_witness :
    get_lower_upper_quartile [1, 2, 3, 4] = .error .indexError ∧
      11 ≤ ([1, 2, 3, 4, 5, 6, 7, 8, 9, 10, 11] : List ℚ).length := by
  constructor
  · exact (get_lower_upper_quartile_fails_between_four_and_ten [1, 2, 3, 4]
      (by norm_num)).1 (by norm_num)
  · refine (get_lower_upper_quartile_fails_between_four_and_ten
      [1, 2, 3, 4, 5, 6, 7, 8, 9, 10, 11] (by norm_num)).2 ⟨(19/6, 65/6), ?_⟩
    norm_num [get_lower_upper_quartile, pyGet, bind, Except.bind]
    norm_num [pure, Except.pure, show (Int.toNat 2) = 2 from rfl,
      show (Int.toNat 3) = 3 from rfl, show (Int.toNat 9) = 9 from rfl,
      show (Int.toNat 10) = 10 from rfl]

/-- C4: for every value list with fewer than 4 values,
`get_lower_upper_quartile` fails with an index-out-of-range error (the
spec's `InsufficientDataError`), and never returns a pair for such lists. -/
theorem get_lower_upper_quartile_insufficient_data (l : List ℚ)
    (hl : l.length < 4) :
    get_lower_upper_quartile l = .error .indexError := by
  exact get_lower_upper_quartile_error_of_length_le_ten l (by omega)

/-- C4 witness: at the concrete 3-element list `[1, 2, 3]`. -/
theorem get_lower_upper_quartile_insufficient_data_witness :
    get_lower_upper_quartile [1, 2, 3] = .error .indexError :=
  get_lower_upper_quartile_insufficient_data [1, 2, 3] (by norm_num)

/-- C5 (evaluation at the failing input): on the pre-sorted odd-length list
`[1,2,3,4,5]` the code does not return the median `3`: `median_index =
(5+1)/2` is the float `3.0` under Python 3 true division, so the
list-indexing step raises `TypeError`. -/
theorem get_median_one_to_five_typeError :
    get_median [1, 2, 3, 4, 5] = .error .typeError :=
  get_median_eq_typeError [1, 2, 3, 4, 5]

/-- C6 (evaluation at the failing input): on the even-length list
`[1,2,3,4]` the code does not return `value_list[n/2 - 1] = 2`:
`median_index = 4/2` is the float `2.0` under Python 3 true division, so
the list-indexing step raises `TypeError`. -/
theorem get_median_one_to_four_typeError :
    get_median [1, 2, 3, 4] = .error .typeError :=
  get_median_eq_typeError [1, 2, 3, 4]

/-- C7: `get_median` computes its list indices with true division, so on
every non-empty list both branches produce a float index and the call fails
with `TypeError` at the list-indexing step, never returning a number. -/
theorem get_median_always_typeError (value_list : List ℚ)
    (_hne : value_list ≠ []) :
    get_median value_list = .error .typeError :=
  get_median_eq_typeError value_list

/-- C7 witness: at the concrete non-empty list `[7]`. -/
theorem get_median_always_typeError_witness :
    get_median [7] = .error .typeError :=
  get_median_always_typeError [7] (by simp)

/-- C8 counterexample: the claim "fails with `InvalidDimensionError` for
every `short_diagonal ≤ 0`" is false: at the concrete input `-1 ≤ 0` the
code raises nothing and returns the value `√3/2`. -/
theorem get_hex_area_from_short_diagonal_no_error_at_neg_one :
    get_hex_area_from_short_diagonal (-1) = .ok (Real.sqrt 3 / 2) := by
  have h := get_hex_area_from_short_diagonal_eq (-1)
  simpa using h

/-- C8 (amended): `get_hex_area_from_short_diagonal` never fails: for every
`d` it returns `1.5 · √3 · (d / √3)² = √3/2 · d²`, and the returned value
is positive whenever `d ≠ 0` — in particular for every `d > 0`. -/
theorem get_hex_area_from_short_diagonal_total_and_positive (d : ℝ) :
    ∃ v, get_hex_area_from_short_diagonal d = .ok v ∧
      v = Real.sqrt 3 / 2 * d ^ 2 ∧ (d ≠ 0 → 0 < v) := by
  refine ⟨Real.sqrt 3 / 2 * d ^ 2, get_hex_area_from_short_diagonal_eq d, rfl, fun hd => ?_⟩
  positivity

/-- C8 witness: at the concrete short diagonal `2 > 0`. -/
theorem get_hex_area_from_short_diagonal_total_and_positive_witness :
    ∃ v, get_hex_area_from_short_diagonal 2 = .ok v ∧
      v = Real.sqrt 3 / 2 * 2 ^ 2 ∧ 0 < v := by
  obtain ⟨v, h1, h2, h3⟩ := get_hex_area_from_short_diagonal_total_and_positive 2
  exact ⟨v, h1, h2, h3 (by norm_num)⟩

/-- C9: for every non-empty value list, `get_mean` returns the exact sum of
the values (the idealization of `math.fsum`) divided by their count; in
particular `get_mean [x] = x` for every `x` and
`get_mean [1,2,3,4,5] = 3`. -/
theorem get_mean_is_arithmetic_mean :
    (∀ l : List ℚ, l ≠ [] → get_mean l = .ok (l.sum / l.length)) ∧
    (∀ x : ℚ, get_mean [x] = .ok x) ∧
    get_mean [1, 2, 3, 4, 5] = .ok 3 := by
  have key : ∀ l : List ℚ, l ≠ [] → get_mean l = .ok (l.sum / l.length) := by
    intro l h
    have hlen : l.length ≠ 0 := fun hc => h (List.length_eq_zero.mp hc)
    simp [get_mean, fsum, hlen]
  refine ⟨key, fun x => ?_, ?_⟩
  · rw [key [x] (by simp)]
    norm_num
  · norm_num [get_mean, fsum]

/-- C9 witness: at the concrete non-empty list `[2, 4]`. -/
theorem get_mean_is_arithmetic_mean_witness :
    get_mean [2, 4] = .ok 3 := by
  have h := get_mean_is_arithmetic_mean.1 [2, 4] (by simp)
  norm_num at h
  exact h

/-- C10: for every bounds pair `(lower, upper)` with `lower ≤ upper` and
every value `X`, `winsorize_value` raises `X` to `lower` when `X < lower`,
lowers `X` to `upper` when `X > upper`, and leaves `X` unchanged when
`lower ≤ X ≤ upper`. -/
theorem winsorize_value_clamps (lower upper X : ℚ) (hlu : lower ≤ upper) :
    (X < lower → winsorize_value X (lower, upper) = lower) ∧
    (upper < X → winsorize_value X (lower, upper) = upper) ∧
    (lower ≤ X → X ≤ upper → winsorize_value X (lower, upper) = X) := by
  refine ⟨fun h1 => ?_, fun h2 => ?_, fun h3 h4 => ?_⟩ <;>
    simp only [winsorize_value]
  · rw [if_pos h1]
  · rw [if_neg (by linarith), if_pos h2]
  · rw [if_neg (by linarith), if_neg (by linarith)]

/-- C10 witness: with bounds `(0, 10)`: `-1` is raised to `0`, `11` is
lowered to `10`, and `5` is unchanged. -/
theorem winsorize_value_clamps_witness :
    winsorize_value (-1) (0, 10) = 0 ∧ winsorize_value 11 (0, 10) = 10 ∧
      winsorize_value 5 (0, 10) = 5 :=
  ⟨(winsorize_value_clamps 0 10 (-1) (by norm_num)).1 (by norm_num),
   (winsorize_value_clamps 0 10 11 (by norm_num)).2.1 (by norm_num),
   (winsorize_value_clamps 0 10 5 (by norm_num)).2.2 (by norm_num) (by norm_num)⟩
